import Mathlib

/-!
# Simba Diagnostics Tool — verification of the WebSocket command layer

Shallow embedding of the server-side command handlers of the Simba
Android streaming gateway, translated from
`src-server/websocketHandlers.js`, `src-server/controlWorker.js`,
`src-server/adbService.js` and the client-side
`src-client/ui/sidebarControls.js`.

JavaScript `Map`s become association lists, `ws.send`/`device.shell`/
`setTimeout` calls become entries of an explicit effect list, and results
of external ADB invocations are supplied as oracle arguments.  Machine
integers do not overflow in the modelled code paths (all quantities are
small), so `Nat`/`Int` are used directly; the one bit-level operation
(`x & 0x7fffffff`) is kept as `Nat` bitwise `and`.

Code of the repository that the claims depend on but that is not part of
the available sources (`src-server/scrcpySession.js`,
`src-server/constants.js`) is modelled from the specification; each such
definition carries a doc comment starting with `Modelled from the spec:`.
-/

namespace Simba

/-- A JSON message sent to a WebSocket client.  Only the fields the
verified properties talk about are represented (`type`, `commandId`,
`success`, `message`, `error`, `output`); payload fields such as
`requestedValue`, `ssid`, `batteryLevel`, `volume`, `key` or
`packageName` carry data but are never inspected by the claims and are
elided. -/
structure WsMsg where
  type : String
  commandId : Option String := none
  success : Option Bool := none
  message : Option String := none
  error : Option String := none
  output : Option String := none
  deriving Repr, DecidableEq

/-- An observable side effect of a handler: a message sent on the client
WebSocket, a shell command executed on the device via ADB, or a
`setTimeout` delay. -/
inductive Effect where
  | send (m : WsMsg)
  | shell (cmd : String)
  | sleep (ms : Nat)
  deriving Repr, DecidableEq

/-- The messages of an effect list that were sent on the WebSocket. -/
def sends (l : List Effect) : List WsMsg :=
  l.filterMap fun e =>
    match e with
    | .send m => some m
    | _ => none

/-- The shell commands of an effect list. -/
def shells (l : List Effect) : List String :=
  l.filterMap fun e =>
    match e with
    | .shell c => some c
    | _ => none

/-- The sleep durations of an effect list. -/
def sleeps (l : List Effect) : List Nat :=
  l.filterMap fun e =>
    match e with
    | .sleep ms => some ms
    | _ => none

/-- Modelled from the spec: the response-`type` strings of the missing
`src-server/constants.js` (`C.MESSAGE_TYPES`), taken from the command
table of §4.6 of the specification (`status`, `error`, `volumeResponse`,
`volumeInfo`, `navResponse`, `wifiResponse`, `wifiStatus`, `batteryInfo`,
`launchAppResponse`, `adbDevicesList`, `launcherAppsList`). -/
def MESSAGE_TYPES_STATUS : String := "status"

/-- Modelled from the spec: `C.MESSAGE_TYPES.ERROR` (see
`MESSAGE_TYPES_STATUS`). -/
def MESSAGE_TYPES_ERROR : String := "error"

/-- Modelled from the spec: `C.MESSAGE_TYPES.VOLUME_RESPONSE`. -/
def MESSAGE_TYPES_VOLUME_RESPONSE : String := "volumeResponse"

/-- Modelled from the spec: `C.MESSAGE_TYPES.VOLUME_INFO`. -/
def MESSAGE_TYPES_VOLUME_INFO : String := "volumeInfo"

/-- Modelled from the spec: `C.MESSAGE_TYPES.NAV_RESPONSE`. -/
def MESSAGE_TYPES_NAV_RESPONSE : String := "navResponse"

/-- Modelled from the spec: `C.MESSAGE_TYPES.WIFI_RESPONSE`. -/
def MESSAGE_TYPES_WIFI_RESPONSE : String := "wifiResponse"

/-- Modelled from the spec: `C.MESSAGE_TYPES.WIFI_STATUS`. -/
def MESSAGE_TYPES_WIFI_STATUS : String := "wifiStatus"

/-- Modelled from the spec: `C.MESSAGE_TYPES.BATTERY_INFO`. -/
def MESSAGE_TYPES_BATTERY_INFO : String := "batteryInfo"

/-- Modelled from the spec: `C.MESSAGE_TYPES.LAUNCH_APP_RESPONSE`. -/
def MESSAGE_TYPES_LAUNCH_APP_RESPONSE : String := "launchAppResponse"

/-- Per-connection client record of `websocketHandlers.js`
(`wsClients.set(clientId, { ws, session: null })`).  `wsOpen` abstracts
`ws.readyState === WebSocket.OPEN`. -/
structure Client where
  wsOpen : Bool := true
  session : Option String := none
  deriving Repr, DecidableEq

/-- The per-session record held by `sessionManager.sessions`
(`scrcpySession.js`); only the fields read by the handlers under
verification are represented. -/
structure Session where
  deviceId : Option String := none
  androidVersion : Option Nat := none
  maxVolume : Option Nat := none
  deriving Repr, DecidableEq

/-- The module-level mutable maps of `websocketHandlers.js` and
`scrcpySession.js` gathered into one value: `wsClients`
(clientId → record), `sessions` (scid → record), `activeShells`
(keyed by clientId), `diagnosticsProcesses` (keyed by deviceId) and
`metricsIntervals` (keyed by clientId).  For the shell/diagnostics/
metrics maps only the key sets matter to the claims. -/
structure ServerState where
  wsClients : List (String × Client) := []
  sessions : List (String × Session) := []
  activeShells : List String := []
  diagnosticsProcesses : List String := []
  metricsIntervals : List String := []
  deriving Repr, DecidableEq

/-- Looks a client up in `wsClients` (`wsClients.get(clientId)`). -/
def ServerState.client (st : ServerState) (clientId : String) : Option Client :=
  st.wsClients.lookup clientId

/-- Looks a session up in `sessions`
(`sessionManager.sessions.get(scid)`). -/
def ServerState.sessionOf (st : ServerState) (scid : String) : Option Session :=
  st.sessions.lookup scid

/-- The session record of the client's active session, if any:
`sessionManager.sessions.get(client.session)`. -/
def ServerState.clientSession (st : ServerState) (clientId : String) :
    Option Session :=
  match st.client clientId with
  | none => none
  | some c =>
    match c.session with
    | none => none
    | some scid => st.sessionOf scid

/-! ## Device-control command handlers (`websocketHandlers.js`)

Each handler is a function from the server state, the client id, the
fields of the parsed JSON message and oracles for the outcomes of the
ADB interactions to the list of effects it produces.  The incoming
message structures carry a `commandId` field because every client JSON
command may do so; a handler that ignores it in the source ignores it
here too. -/

/-- `message` fields read by `handleVolumeCommand`.  `value` is the
result of `parseInt(message.value, 10)` (`none` = `NaN`), `valueRaw` the
textual form used when the value is echoed in error responses. -/
structure VolumeMsg where
  value : Option Int := none
  valueRaw : String := ""
  commandId : Option String := none
  deriving Repr, DecidableEq

/-- `handleVolumeCommand` of `websocketHandlers.js`: guards for an
active session and a session device, validates the 0..100 volume value,
then delegates to `adbService.setMediaVolume` (whose outcome, including
the shell command it runs, is the oracle `setVolume`).  Responses use
type `volumeResponse` and never carry `commandId`. -/
def handleVolumeCommand (st : ServerState) (clientId : String) (m : VolumeMsg)
    (setVolume : Except String String) : List Effect :=
  match st.client clientId with
  | none =>
    [.send { type := MESSAGE_TYPES_VOLUME_RESPONSE, success := some false,
             error := some "No active session" }]
  | some client =>
    match client.session with
    | none =>
      [.send { type := MESSAGE_TYPES_VOLUME_RESPONSE, success := some false,
               error := some "No active session" }]
    | some scid =>
      match (st.sessionOf scid).bind Session.deviceId with
      | none =>
        [.send { type := MESSAGE_TYPES_VOLUME_RESPONSE, success := some false,
                 error := some "No device found" }]
      | some _ =>
        match m.value with
        | none =>
          [.send { type := MESSAGE_TYPES_VOLUME_RESPONSE, success := some false,
                   error := some ("Invalid volume value: " ++ m.valueRaw) }]
        | some v =>
          if v < 0 ∨ 100 < v then
            [.send { type := MESSAGE_TYPES_VOLUME_RESPONSE, success := some false,
                     error := some ("Invalid volume value: " ++ m.valueRaw) }]
          else
            match setVolume with
            | .ok cmd =>
              [.shell cmd,
               .send { type := MESSAGE_TYPES_VOLUME_RESPONSE, success := some true }]
            | .error e =>
              [.send { type := MESSAGE_TYPES_VOLUME_RESPONSE, success := some false,
                       error := some e }]

/-- `handleGetVolumeCommand`: same guards, then
`adbService.getMediaVolumeInfo` (oracle `volumeInfo` = `(max, current)`
on success).  The reported percentage is
`Math.round(current / max * 100)`. -/
def handleGetVolumeCommand (st : ServerState) (clientId : String)
    (getInfo : Except String (Nat × Nat)) : List Effect :=
  match st.client clientId with
  | none =>
    [.send { type := MESSAGE_TYPES_VOLUME_INFO, success := some false,
             error := some "No active session" }]
  | some client =>
    match client.session with
    | none =>
      [.send { type := MESSAGE_TYPES_VOLUME_INFO, success := some false,
               error := some "No active session" }]
    | some scid =>
      match (st.sessionOf scid).bind Session.deviceId with
      | none =>
        [.send { type := MESSAGE_TYPES_VOLUME_INFO, success := some false,
                 error := some "No device found" }]
      | some _ =>
        match getInfo with
        | .ok _ =>
          [.send { type := MESSAGE_TYPES_VOLUME_INFO, success := some true }]
        | .error e =>
          [.send { type := MESSAGE_TYPES_VOLUME_INFO, success := some false,
                   error := some e }]

/-- `message` fields read by `handleNavAction`. -/
structure NavMsg where
  key : String := ""
  commandId : Option String := none
  deriving Repr, DecidableEq

/-- `handleNavAction`: guards, then maps the key through
`C.NAV_KEYCODES` (the table lives in the missing `constants.js`, so it
is an oracle argument `navKeycodes`; a missing or zero keycode is falsy
in the source) and runs `input keyevent <keycode>` (oracle `shellOk`
gives the outcome of the `device.shell` call). -/
def handleNavAction (st : ServerState) (clientId : String) (m : NavMsg)
    (navKeycodes : String → Option Nat) (shellOk : Except String Unit) :
    List Effect :=
  match st.client clientId with
  | none =>
    [.send { type := MESSAGE_TYPES_NAV_RESPONSE, success := some false,
             error := some "No active session" }]
  | some client =>
    match client.session with
    | none =>
      [.send { type := MESSAGE_TYPES_NAV_RESPONSE, success := some false,
               error := some "No active session" }]
    | some scid =>
      match (st.sessionOf scid).bind Session.deviceId with
      | none =>
        [.send { type := MESSAGE_TYPES_NAV_RESPONSE, success := some false,
                 error := some "No device found" }]
      | some _ =>
        match navKeycodes m.key with
        | none =>
          [.send { type := MESSAGE_TYPES_NAV_RESPONSE, success := some false,
                   error := some "Invalid navigation key" }]
        | some keycode =>
          if keycode = 0 then
            [.send { type := MESSAGE_TYPES_NAV_RESPONSE, success := some false,
                     error := some "Invalid navigation key" }]
          else
            .shell ("input keyevent " ++ toString keycode) ::
            match shellOk with
            | .ok _ =>
              [.send { type := MESSAGE_TYPES_NAV_RESPONSE, success := some true }]
            | .error e =>
              [.send { type := MESSAGE_TYPES_NAV_RESPONSE, success := some false,
                       error := some e }]

/-- The shell pipeline issued to read the Wi-Fi on/off state
(`dumpsys wifi | grep "Wi-Fi is"`). -/
def wifiStatusCmd : String := "dumpsys wifi | grep \"Wi-Fi is\""

/-- The shell pipeline issued to read the SSID. -/
def wifiSsidCmd : String :=
  "dumpsys wifi | grep \x27Supplicant state: COMPLETED\x27 | tail -n 1 | " ++
  "grep -Eo \x27SSID: [^,]+\x27 | sed \x27s/SSID: //\x27 | sed \x27s/\"//g\x27 | head -n 1"

/-- `handleGetWifiStatusCommand`: guards, one status read, an SSID read
only when Wi-Fi is on.  `statusOutput` and `ssidOutput` are the
collected shell outputs. -/
def handleGetWifiStatusCommand (st : ServerState) (clientId : String)
    (statusOutput ssidOutput : String) : List Effect :=
  match st.client clientId with
  | none =>
    [.send { type := MESSAGE_TYPES_WIFI_STATUS, success := some false,
             error := some "No active session" }]
  | some client =>
    match client.session with
    | none =>
      [.send { type := MESSAGE_TYPES_WIFI_STATUS, success := some false,
               error := some "No active session" }]
    | some scid =>
      match (st.sessionOf scid).bind Session.deviceId with
      | none =>
        [.send { type := MESSAGE_TYPES_WIFI_STATUS, success := some false,
                 error := some "No device found" }]
      | some _ =>
        let isWifiOn := (statusOutput.splitOn "Wi-Fi is enabled").length > 1
        let _ssid := if isWifiOn then some ssidOutput.trim else none
        if isWifiOn then
          [.shell wifiStatusCmd, .shell wifiSsidCmd,
           .send { type := MESSAGE_TYPES_WIFI_STATUS, success := some true }]
        else
          [.shell wifiStatusCmd,
           .send { type := MESSAGE_TYPES_WIFI_STATUS, success := some true }]

/-- The shell pipeline run by `adbService.getBatteryLevel`. -/
def batteryLevelCmd : String :=
  "dumpsys battery | grep \x27level:\x27 | cut -d\x27:\x27 -f2 | tr -d \x27 \x27"

/-- `handleGetBatteryLevelCommand`: guards, then
`adbService.getBatteryLevel` (which shells `batteryLevelCmd`, parses the
output and rejects values outside 0..100; its outcome is the oracle
`battery`). -/
def handleGetBatteryLevelCommand (st : ServerState) (clientId : String)
    (battery : Except String Nat) : List Effect :=
  match st.client clientId with
  | none =>
    [.send { type := MESSAGE_TYPES_BATTERY_INFO, success := some false,
             error := some "No active session" }]
  | some client =>
    match client.session with
    | none =>
      [.send { type := MESSAGE_TYPES_BATTERY_INFO, success := some false,
               error := some "No active session" }]
    | some scid =>
      match (st.sessionOf scid).bind Session.deviceId with
      | none =>
        [.send { type := MESSAGE_TYPES_BATTERY_INFO, success := some false,
                 error := some "No device found" }]
      | some _ =>
        .shell batteryLevelCmd ::
        match battery with
        | .ok _ =>
          [.send { type := MESSAGE_TYPES_BATTERY_INFO, success := some true }]
        | .error e =>
          [.send { type := MESSAGE_TYPES_BATTERY_INFO, success := some false,
                   error := some e }]

/-- `message` fields read by `handleLaunchApp`.  A missing package name
and the empty string are both falsy in the source's
`if (!packageName)`. -/
structure LaunchAppMsg where
  packageName : Option String := none
  commandId : Option String := none
  deriving Repr, DecidableEq

/-- `handleLaunchApp`: guards, then
`monkey -p <pkg> -c android.intent.category.LAUNCHER 1`. -/
def handleLaunchApp (st : ServerState) (clientId : String) (m : LaunchAppMsg)
    (shellOk : Except String Unit) : List Effect :=
  match st.client clientId with
  | none =>
    [.send { type := MESSAGE_TYPES_LAUNCH_APP_RESPONSE, success := some false,
             error := some "No active session" }]
  | some client =>
    match client.session with
    | none =>
      [.send { type := MESSAGE_TYPES_LAUNCH_APP_RESPONSE, success := some false,
               error := some "No active session" }]
    | some scid =>
      match (st.sessionOf scid).bind Session.deviceId with
      | none =>
        [.send { type := MESSAGE_TYPES_LAUNCH_APP_RESPONSE, success := some false,
                 error := some "No device found" }]
      | some _ =>
        match m.packageName with
        | none =>
          [.send { type := MESSAGE_TYPES_LAUNCH_APP_RESPONSE, success := some false,
                   error := some "Package name missing" }]
        | some pkg =>
          if pkg = "" then
            [.send { type := MESSAGE_TYPES_LAUNCH_APP_RESPONSE, success := some false,
                     error := some "Package name missing" }]
          else
            .shell ("monkey -p " ++ pkg ++ " -c android.intent.category.LAUNCHER 1") ::
            match shellOk with
            | .ok _ =>
              [.send { type := MESSAGE_TYPES_LAUNCH_APP_RESPONSE,
                       success := some true }]
            | .error e =>
              [.send { type := MESSAGE_TYPES_LAUNCH_APP_RESPONSE,
                       success := some false, error := some e }]

/-- The bounded polling loop of `handleWifiToggleCommand`
(`while (attempts < maxAttempts) { poll; if ok break; attempts++;
if (attempts < maxAttempts) sleep(pollInterval); }`), written with the
remaining number of attempts (`fuel = maxAttempts - attempts`) as the
structural argument.  `check i` abstracts whether the `i`-th poll
succeeds; the returned Boolean is whether the loop exited via `break`. -/
def pollLoop (check : Nat → Bool) (cmd : String) (interval : Nat) :
    Nat → Nat → List Effect × Bool
  | _, 0 => ([], false)
  | attempt, fuel + 1 =>
    if check attempt then ([.shell cmd], true)
    else
      let rest := pollLoop check cmd interval (attempt + 1) fuel
      (.shell cmd :: (if 0 < fuel then [.sleep interval] else []) ++ rest.1, rest.2)

/-- `message` fields read by `handleWifiToggleCommand`.  `enable` is
`none` when `message.enable` is not a boolean
(`typeof enableWifi !== "boolean"`). -/
structure WifiToggleMsg where
  enable : Option Bool := none
  commandId : Option String := none
  deriving Repr, DecidableEq

/-- `handleWifiToggleCommand` of `websocketHandlers.js`: guards, then
`svc wifi enable`/`svc wifi disable`.  On enable, it polls the Wi-Fi
state (`maxAttemptsWifiOn = 10`), then the SSID
(`maxAttemptsSsid = 15`), at `pollInterval = 500` ms.  `wifiOn i`
abstracts whether the `i`-th `dumpsys wifi` output contains
`"Wi-Fi is enabled"`, `ssidOut i` is the `i`-th SSID pipeline output
(valid when its trim is neither empty nor `"<unknown ssid>"`).
`disableStatusOn` is the single status read of the disable path. -/
def handleWifiToggleCommand (st : ServerState) (clientId : String)
    (m : WifiToggleMsg) (wifiOn : Nat → Bool) (ssidOut : Nat → String)
    (disableStatusOn : Bool) : List Effect :=
  match st.client clientId with
  | none =>
    [.send { type := MESSAGE_TYPES_WIFI_RESPONSE, success := some false,
             error := some "No active session" }]
  | some client =>
    match client.session with
    | none =>
      [.send { type := MESSAGE_TYPES_WIFI_RESPONSE, success := some false,
               error := some "No active session" }]
    | some scid =>
      match (st.sessionOf scid).bind Session.deviceId with
      | none =>
        [.send { type := MESSAGE_TYPES_WIFI_RESPONSE, success := some false,
                 error := some "No device found" }]
      | some _ =>
        match m.enable with
        | none =>
          [.send { type := MESSAGE_TYPES_WIFI_RESPONSE, success := some false,
                   error := some "Invalid Wi-Fi toggle value" }]
        | some true =>
          let onPoll := pollLoop wifiOn wifiStatusCmd 500 0 10
          .shell "svc wifi enable" ::
          onPoll.1 ++
          (if onPoll.2 = false then
            [.send { type := MESSAGE_TYPES_WIFI_RESPONSE, success := some false,
                     error := some "Wi-Fi failed to enable" }]
          else
            let ssidValid := fun i =>
              (ssidOut i).trim ≠ "" ∧ (ssidOut i).trim ≠ "<unknown ssid>"
            let ssidPoll := pollLoop (fun i => decide (ssidValid i)) wifiSsidCmd 500 0 15
            ssidPoll.1 ++
            (if ssidPoll.2 = false then
              [.send { type := MESSAGE_TYPES_WIFI_RESPONSE, success := some false,
                       error := some "Failed to connect to SSID" }]
            else
              [.send { type := MESSAGE_TYPES_WIFI_RESPONSE, success := some true }]))
        | some false =>
          let _isWifiOn := disableStatusOn
          [.shell "svc wifi disable", .sleep 500, .shell wifiStatusCmd,
           .send { type := MESSAGE_TYPES_WIFI_RESPONSE, success := some true }]

/-! ## `handleAdbCommand` (`websocketHandlers.js`) -/

/-- Result shape of `adbService.executeAdbShellCommand` /
`adbService.adbListDisplays`: `{ success, output? }` on success,
`{ success: false, error }` on failure (`output` is the trimmed stream
output; the `data` array of `adbListDisplays` is elided).  The branches
of `handleAdbCommand` may add a `message` field before responding. -/
structure AdbResult where
  success : Bool
  output : Option String := none
  error : Option String := none
  message : Option String := none
  deriving Repr, DecidableEq

/-- JavaScript `parseInt(s, 10)`: skip leading whitespace, optional
sign, then the longest digit prefix; `none` models `NaN`. -/
def jsParseInt (s : String) : Option Int :=
  let cs := s.toList.dropWhile fun c =>
    c = ' ' ∨ c = '\t' ∨ c = '\n' ∨ c = '\r'
  let signAndDigits : Bool × List Char :=
    match cs with
    | '-' :: rest => (true, rest)
    | '+' :: rest => (false, rest)
    | _ => (false, cs)
  let ds := signAndDigits.2.takeWhile Char.isDigit
  if ds.isEmpty then none
  else
    let n : Nat := ds.foldl (fun acc c => acc * 10 + (c.toNat - 48)) 0
    some (if signAndDigits.1 then -(n : Int) else (n : Int))

/-- `parseInt` applied to the `output` field of an `AdbResult` (an
absent field is `undefined`, and `parseInt(undefined)` is `NaN`). -/
def AdbResult.parsedOutput (r : AdbResult) : Option Int :=
  match r.output with
  | none => none
  | some s => jsParseInt s

/-- Template interpolation of a possibly-absent `error` field
(`` `${res.error}` `` prints `undefined` when the field is missing). -/
def AdbResult.errorText (r : AdbResult) : String :=
  match r.error with
  | none => "undefined"
  | some e => e

/-- The per-device rotation cache `adbService.rotationStates[deviceId]`
recorded by `adbRotateScreen` so that `cleanupAdb` can restore the
original `user_rotation` and `accelerometer_rotation`. -/
structure RotState where
  user_rotation : Int
  accelerometer_rotation : Int
  deriving Repr, DecidableEq

/-- `message` fields read by `handleAdbCommand`. -/
structure AdbCmdMsg where
  commandType : String := ""
  deviceId : Option String := none
  commandId : Option String := none
  resolution : String := ""
  dpi : String := ""
  mode : String := ""
  deriving Repr, DecidableEq

/-- The `switch (commandType)` body of `handleAdbCommand`.  `exec cmd`
is the oracle for `adbService.executeAdbShellCommand(deviceId, cmd)`
(which resolves rather than throws), `listDisplaysResult` the outcome of
`adbService.adbListDisplays`.  Returns the shell effects issued, the
`result` object spread into the response, and the updated rotation
cache for the device. -/
def adbCommandSwitch (exec : String → AdbResult) (listDisplaysResult : AdbResult)
    (rotationStates : Option RotState) (m : AdbCmdMsg) :
    List Effect × AdbResult × Option RotState :=
  if m.commandType = "getDisplayList" then
    ([], listDisplaysResult, rotationStates)
  else if m.commandType = "setOverlay" then
    let cmd := "settings put global overlay_display_devices " ++
      m.resolution ++ "/" ++ m.dpi
    ([.shell cmd], exec cmd, rotationStates)
  else if m.commandType = "setWmSize" then
    let cmd := "wm size " ++ m.resolution
    ([.shell cmd], exec cmd, rotationStates)
  else if m.commandType = "setWmDensity" then
    let cmd := "wm density " ++ m.dpi
    ([.shell cmd], exec cmd, rotationStates)
  else if m.commandType = "adbRotateScreen" then
    let initEffs : List Effect × RotState :=
      match rotationStates with
      | some r => ([], r)
      | none =>
        let initialUserRot := exec "settings get system user_rotation"
        let initialAccelRot := exec "settings get system accelerometer_rotation"
        ([.shell "settings get system user_rotation",
          .shell "settings get system accelerometer_rotation"],
         { user_rotation :=
             match initialUserRot.parsedOutput with
             | some v => if initialUserRot.success then v else 0
             | none => 0
           accelerometer_rotation :=
             match initialAccelRot.parsedOutput with
             | some v => if initialAccelRot.success then v else 1
             | none => 1 })
    let currentRotationResult := exec "settings get system user_rotation"
    let currentRotation : Int :=
      match currentRotationResult.parsedOutput with
      | some v => if currentRotationResult.success then v else 0
      | none => 0
    let nextRotation := (currentRotation + 1).tmod 4
    let putCmd := "settings put system user_rotation " ++ toString nextRotation
    let result := exec putCmd
    let rotatedMsg :=
      "Screen rotated to " ++ toString (nextRotation * 90) ++ " degrees."
    let result :=
      if result.success then { result with message := some rotatedMsg }
      else result
    (initEffs.1 ++
      [.shell "settings get system user_rotation",
       .shell "settings put system accelerometer_rotation 0",
       .shell putCmd],
     result, some initEffs.2)
  else if m.commandType = "cleanupAdb" then
    let wmPart : List Effect × List String :=
      if m.mode = "native_taskbar" then
        let r1 := exec "wm size reset"
        let r2 := exec "wm density reset"
        ([.shell "wm size reset", .shell "wm density reset"],
         ["WM Size Reset: " ++ (if r1.success then "OK" else r1.errorText),
          "WM Density Reset: " ++ (if r2.success then "OK" else r2.errorText)])
      else ([], [])
    let overlayPart : List Effect × List String :=
      if m.mode = "overlay" then
        let r := exec "settings put global overlay_display_devices none"
        ([.shell "settings put global overlay_display_devices none"],
         ["Overlay Reset: " ++ (if r.success then "OK" else r.errorText)])
      else ([], [])
    let rotPart : List Effect × List String × Option RotState :=
      match rotationStates with
      | some r =>
        if m.mode = "native_taskbar" then
          let userCmd := "settings put system user_rotation " ++
            toString r.user_rotation
          let accelCmd := "settings put system accelerometer_rotation " ++
            toString r.accelerometer_rotation
          let ru := exec userCmd
          let ra := exec accelCmd
          ([.shell userCmd, .shell accelCmd],
           ["User Rotation Restore (" ++ toString r.user_rotation ++ "): " ++
              (if ru.success then "OK" else ru.errorText),
            "Accel Rotation Restore (" ++ toString r.accelerometer_rotation ++ "): " ++
              (if ra.success then "OK" else ra.errorText)],
           none)
        else ([], [], some r)
      | none => ([], [], none)
    let cleanupMessages := wmPart.2 ++ overlayPart.2 ++ rotPart.2.1
    (wmPart.1 ++ overlayPart.1 ++ rotPart.1,
     { success := true,
       message := some ("Cleanup for " ++ m.mode ++ " mode: " ++
         String.intercalate "; " cleanupMessages) },
     rotPart.2.2)
  else
    ([], { success := false,
           error := some ("Unknown ADB commandType: " ++ m.commandType) },
     rotationStates)

/-- `handleAdbCommand` of `websocketHandlers.js`: a missing `deviceId`
answers immediately; otherwise the `switch` runs inside `try` (`thrown`,
when `some`, is the message of an exception raised anywhere in the try
block, turned into `{ success: false, error }` by the `catch`; the
`switch` itself never sends), and in every case exactly one
`ws.send({ type: commandType + "Response", commandId, ...result })`
closes the handler. -/
def handleAdbCommand (exec : String → AdbResult) (listDisplaysResult : AdbResult)
    (rotationStates : Option RotState) (thrown : Option String) (m : AdbCmdMsg) :
    List Effect × Option RotState :=
  match m.deviceId with
  | none =>
    ([.send { type := m.commandType ++ "Response", commandId := m.commandId,
              success := some false, error := some "Device ID missing" }],
     rotationStates)
  | some _ =>
    let step : List Effect × AdbResult × Option RotState :=
      match thrown with
      | some e => ([], { success := false, error := some e }, rotationStates)
      | none => adbCommandSwitch exec listDisplaysResult rotationStates m
    (step.1 ++
      [.send { type := m.commandType ++ "Response", commandId := m.commandId,
               success := some step.2.1.success, error := step.2.1.error,
               message := step.2.1.message, output := step.2.1.output }],
     step.2.2)

/-! ## Control worker (`controlWorker.js`) and connection lifecycle -/

/-- A message the worker posts back to the main thread
(`parentPort.postMessage`). -/
inductive WorkerOut where
  | writeToSocket (scid clientId : String) (data : List Nat)
  | error (scid clientId : String) (errMsg : String)
  deriving Repr, DecidableEq

/-- The `parentPort.on("message")` handler of `controlWorker.js` for a
`controlData` message.  `data` is the received payload as bytes after
the `Buffer` conversion, `none` when the value was not coercible to a
`Buffer` (the conversion throws).  A zero-length buffer throws
`"Empty control data"`; every `throw` is caught and posted back as an
`error` message; otherwise a single `writeToSocket` is posted.  A
`stop` message exits the worker and posts nothing. -/
def workerOnMessage (msgType : String) (data : Option (List Nat))
    (scid clientId : String) : List WorkerOut :=
  if msgType = "controlData" then
    match data with
    | none =>
      [.error scid clientId "Received invalid data type for controlData"]
    | some bytes =>
      if bytes.length = 0 then
        [.error scid clientId "Empty control data"]
      else
        [.writeToSocket scid clientId bytes]
  else []

/-- Whether a worker output is a `writeToSocket` message. -/
def WorkerOut.isWrite : WorkerOut → Bool
  | .writeToSocket _ _ _ => true
  | _ => false

/-- Modelled from the spec: the main thread's handling of a worker
`error` message (the handler lives in the missing
`src-server/scrcpySession.js`).  §4.2: "Malformed frames (len 0) are
dropped with a warning; they are never fatal" and §7:
"`ProtocolViolation` on a client message: the single message is dropped
with a warning; connection is not closed" — the warning is logged and
the sessions/clients state is left untouched. -/
def onWorkerError (st : ServerState) : ServerState := st

/-- Modelled from the spec: `sessionManager.cleanupSession(scid,
wsClients)` of the missing `src-server/scrcpySession.js`.  §4.3: it
closes the session's sockets, removes the reverse tunnel, detaches the
owner client and deletes the session record.  It receives only the
`sessions` and `wsClients` maps — `activeShells`,
`diagnosticsProcesses` and `metricsIntervals` are module-private,
non-exported maps of `websocketHandlers.js`, so `cleanupSession`
cannot touch them. -/
def cleanupSession (scid : String) (st : ServerState) : ServerState :=
  { st with
    sessions := st.sessions.filter fun p => p.1 ≠ scid
    wsClients := st.wsClients.map fun p =>
      if p.2.session = some scid then (p.1, { p.2 with session := none }) else p }

/-- The `ws.on("close")` handler installed by `createWebSocketServer`
(`websocketHandlers.js`): if the closing client owns a session it is
cleaned up, then the client is removed from `wsClients`.  Nothing else
is touched. -/
def onWsClose (clientId : String) (st : ServerState) : ServerState :=
  let st1 :=
    match (st.client clientId).bind Client.session with
    | some scid => cleanupSession scid st
    | none => st
  { st1 with wsClients := st1.wsClients.filter fun p => p.1 ≠ clientId }

/-- Replaces a client's record in `wsClients`. -/
def ServerState.setClient (st : ServerState) (clientId : String) (c : Client) :
    ServerState :=
  { st with wsClients := st.wsClients.map fun p =>
      if p.1 = clientId then (p.1, c) else p }

/-- `handleClientDisconnectCommand` of `websocketHandlers.js`: an
unknown client only logs; a client with a session is detached
(`client.session = null`), told `"Streaming stopped"` when its socket
is open, and its session is cleaned up; a client without a session is
told `"No active stream to stop."` (when open) and nothing changes. -/
def handleClientDisconnectCommand (clientId : String) (st : ServerState) :
    ServerState × List WsMsg :=
  match st.client clientId with
  | none => (st, [])
  | some client =>
    match client.session with
    | some scidToStop =>
      let st1 := st.setClient clientId { client with session := none }
      let msgs :=
        if client.wsOpen then
          [{ type := MESSAGE_TYPES_STATUS, message := some "Streaming stopped" }]
        else []
      (cleanupSession scidToStop st1, msgs)
    | none =>
      let msgs :=
        if client.wsOpen then
          [{ type := MESSAGE_TYPES_STATUS,
             message := some "No active stream to stop." }]
        else []
      (st, msgs)

/-! ## `handleStart` (`websocketHandlers.js`) and session ids -/

/-- JavaScript `String(b)` for a boolean. -/
def jsStringOfBool (b : Bool) : String := if b then "true" else "false"

/-- `message` fields read by the option-building part of `handleStart`.
`maxFps`/`bitrate` are the `parseInt` results (`none` = `NaN`),
`enableAudio`/`enableControl`/`noPowerOn`/`powerOffOnClose`/
`turnScreenOff` the truthiness of the corresponding fields,
`videoFalsy` whether `message.video === false || message.video ===
"false"`, and `rotationLock` is truthy exactly when non-empty. -/
structure StartMsg where
  maxFps : Option Int := none
  bitrate : Option Int := none
  enableAudio : Bool := false
  videoFalsy : Bool := false
  enableControl : Bool := false
  noPowerOn : Bool := false
  powerOffOnClose : Bool := false
  displayMode : String := ""
  overlayDisplayId : Option Int := none
  resolution : String := ""
  dpi : String := ""
  rotationLock : String := ""
  turnScreenOff : Bool := false
  deriving Repr, DecidableEq

/-- The scrcpy server options assembled by `handleStart`
(`runOptions`).  The spread `{ ...C.BASE_SCRCPY_OPTIONS }` seeds
defaults from the missing `constants.js`; `audio`, `video` and
`control` are overwritten unconditionally, the optional fields are only
ever written by `handleStart`, so the unknown base values are the
`none`/`""` defaults here. -/
structure RunOptions where
  audio : String := ""
  video : String := ""
  control : String := ""
  max_fps : Option String := none
  video_bit_rate : Option String := none
  power_on : Option String := none
  power_off_on_close : Option String := none
  display_id : Option String := none
  new_display : Option String := none
  capture_orientation : Option String := none
  deriving Repr, DecidableEq

/-- The `runOptions` computation of `handleStart` (lines following the
Android version probe): `max_fps`/`video_bit_rate` only for positive
parsed numbers, `audio` forced to `"false"` below Android 11, `video`
negated falsiness, `control` from the flag, power flags, the
display-mode dependent `display_id`/`new_display`, and
`capture_orientation` only outside `native_taskbar`/`dex` when a
rotation lock was requested. -/
def buildRunOptions (androidVersion : Nat) (m : StartMsg) : RunOptions :=
  let o : RunOptions := {}
  let o := match m.maxFps with
    | some f => if 0 < f then { o with max_fps := some (toString f) } else o
    | none => o
  let o := match m.bitrate with
    | some b => if 0 < b then { o with video_bit_rate := some (toString b) } else o
    | none => o
  let o := { o with
    audio := if androidVersion < 11 then "false" else jsStringOfBool m.enableAudio
    video := jsStringOfBool (!m.videoFalsy)
    control := jsStringOfBool m.enableControl }
  let o := if m.noPowerOn then { o with power_on := some "false" } else o
  let o := if m.powerOffOnClose then { o with power_off_on_close := some "true" } else o
  let o :=
    if m.displayMode = "overlay" ∧ m.overlayDisplayId ≠ none then
      { o with display_id := (m.overlayDisplayId.map toString) }
    else if m.displayMode = "native_taskbar" then
      { o with display_id := some "0" }
    else if m.displayMode = "dex" then
      { o with display_id := some "2" }
    else if m.displayMode = "virtual" ∧ m.resolution ≠ "reset" ∧ m.dpi ≠ "reset" then
      { o with new_display := some (m.resolution ++ "/" ++ m.dpi) }
    else o
  if m.displayMode ≠ "native_taskbar" ∧ m.displayMode ≠ "dex" ∧ m.rotationLock ≠ "" then
    { o with capture_orientation := some m.rotationLock }
  else o

/-- Modelled from the spec: §6 serializes the on-device server options
"as space-separated `key=value`" tokens (the serialization itself lives
in the missing `src-server/scrcpySession.js`). -/
def serializeRunOptions (o : RunOptions) : List String :=
  ["video=" ++ o.video, "audio=" ++ o.audio, "control=" ++ o.control] ++
  (match o.max_fps with | some v => ["max_fps=" ++ v] | none => []) ++
  (match o.video_bit_rate with | some v => ["video_bit_rate=" ++ v] | none => []) ++
  (match o.power_on with | some v => ["power_on=" ++ v] | none => []) ++
  (match o.power_off_on_close with
    | some v => ["power_off_on_close=" ++ v] | none => []) ++
  (match o.display_id with | some v => ["display_id=" ++ v] | none => []) ++
  (match o.new_display with | some v => ["new_display=" ++ v] | none => []) ++
  (match o.capture_orientation with
    | some v => ["capture_orientation=" ++ v] | none => [])

/-- The local port picked by `handleStart`:
`C.SERVER_PORT_BASE + (sessionManager.sessions.size % 1000)` (the base
constant lives in the missing `constants.js` and stays abstract). -/
def handleStartPort (SERVER_PORT_BASE : Nat) (sessionsSize : Nat) : Nat :=
  SERVER_PORT_BASE + sessionsSize % 1000

/-- Modelled from the spec: §4.3 "Port collisions are resolved by
probing incrementally" (the probing lives in the missing
`src-server/scrcpySession.js`): starting from the allocated port, try
consecutive ports until a free one is found; `fuel` bounds the probe
range. -/
def probePort (isFree : Nat → Bool) : Nat → Nat → Option Nat
  | _, 0 => none
  | p, fuel + 1 => if isFree p then some p else probePort isFree (p + 1) fuel

/-- The messages `handleStart` sends after the options are built: on a
successful `setupScrcpySession` the audio-downgrade notice (only when
the device is below Android 11 and audio was requested), on a thrown
setup error the `Setup failed` error message. -/
def handleStartMessages (androidVersion : Nat) (m : StartMsg)
    (setup : Except String Unit) : List WsMsg :=
  match setup with
  | .ok _ =>
    if androidVersion < 11 ∧ m.enableAudio then
      [{ type := MESSAGE_TYPES_STATUS,
         message := some "Audio disabled (Android < 11)" }]
    else []
  | .error e =>
    [{ type := MESSAGE_TYPES_ERROR, message := some ("Setup failed: " ++ e) }]

/-- Lowercase hexadecimal digit character (as produced by JavaScript
`Number.prototype.toString(16)`): `0`–`9` then `a`–`f`. -/
def hexDigitChar (n : Nat) : Char :=
  if n < 10 then Char.ofNat (48 + n) else Char.ofNat (87 + n)

/-- Base-16 digits of `n`, least significant first (empty for `0`). -/
def jsHexRev : Nat → List Char
  | 0 => []
  | n + 1 => hexDigitChar ((n + 1) % 16) :: jsHexRev ((n + 1) / 16)
decreasing_by exact Nat.div_lt_self (Nat.succ_pos n) (by norm_num)

/-- JavaScript `n.toString(16)` for a non-negative integer. -/
def jsToStringHex (n : Nat) : String :=
  if n = 0 then "0" else String.mk (jsHexRev n).reverse

/-- JavaScript `String.prototype.padStart(targetLength, c)`: prepend
copies of `c` until the target length is reached (a string already long
enough is unchanged). -/
def jsPadStart (s : String) (targetLength : Nat) (c : Char) : String :=
  String.mk (List.replicate (targetLength - s.length) c) ++ s

/-- The session-id generator used both by `handleStart`
(`websocketHandlers.js`) and by `adbService.adbListDisplays`
(`scidForList`), which contain the identical expression
`(crypto.randomBytes(4).readUInt32BE(0) & 0x7fffffff).toString(16)
.padStart(8, "0")`.  `r` is the 32-bit value read from the four random
bytes. -/
def scidOf (r : Nat) : String :=
  jsPadStart (jsToStringHex (r &&& 0x7fffffff)) 8 '0'

/-- The sixteen lowercase hexadecimal characters. -/
def hexLowerChars : List Char := "0123456789abcdef".toList

/-! ## `native_taskbar` pre-start adjustment
(`src-client/ui/sidebarControls.js`, `startStreaming`) -/

/-- JavaScript `Math.round (num / den)` for non-negative operands:
round half away from zero, i.e. `⌊num/den + 1/2⌋`.  The source computes
`(originalHeight / 600) * 160` in binary floating point; for screen
heights the value is never close enough to a half-integer (its
denominator is 15) for the double rounding error to matter, so the
exact rational rounding is faithful. -/
def jsMathRound (num den : Nat) : Nat := (2 * num + den) / (2 * den)

/-- The "magic DPI" of `startStreaming` for `native_taskbar`:
`Math.round((originalHeight / targetSmallestWidth) * 160)` with
`targetSmallestWidth = 600`. -/
def calculatedMagicDpi (originalHeight : Nat) : Nat :=
  jsMathRound (originalHeight * 160) 600

/-- The resolution string passed to `wm size` in `native_taskbar` mode:
the parsed `<W>x<H>` flipped to `<H>x<W>`
(`finalResolution = originalHeight + "x" + originalWidth`). -/
def nativeTaskbarResolution (originalWidth originalHeight : Nat) : String :=
  toString originalHeight ++ "x" ++ toString originalWidth

/-- The DPI passed to `wm density` in `native_taskbar` mode: the
requested DPI, replaced by the magic DPI when it exceeds it
(`if (currentDpiValue > calculatedMagicDpi) finalDpi =
calculatedMagicDpi`). -/
def nativeTaskbarDpi (originalHeight currentDpiValue : Nat) : Nat :=
  if calculatedMagicDpi originalHeight < currentDpiValue then
    calculatedMagicDpi originalHeight
  else currentDpiValue

/-- A handler rejected a command for lack of an active session: its
whole effect list is one `success: false` response with error
`"No active session"`, and in particular it ran no shell command. -/
def noSessionReject (effs : List Effect) (responseType : String) : Prop :=
  effs = [.send { type := responseType, success := some false,
                  error := some "No active session" }] ∧
  shells effs = []

/-- Concrete server state for evaluations: client `"c1"` is connected
without a session. -/
def exampleIdleState : ServerState :=
  { wsClients := [("c1", { wsOpen := true, session := none })] }

/-- Concrete server state for evaluations: client `"c1"` owns session
`"s1"` on device `"d1"` and has an interactive shell, a diagnostics
capture for its device and a metrics interval registered. -/
def exampleBusyState : ServerState :=
  { wsClients := [("c1", { wsOpen := true, session := some "s1" })],
    sessions := [("s1", { deviceId := some "d1", androidVersion := some 13 })],
    activeShells := ["c1"],
    diagnosticsProcesses := ["d1"],
    metricsIntervals := ["c1"] }

/-! ## Helper lemmas -/

theorem sends_append (a b : List Effect) : sends (a ++ b) = sends a ++ sends b :=
  List.filterMap_append a b _

theorem shells_append (a b : List Effect) :
    shells (a ++ b) = shells a ++ shells b :=
  List.filterMap_append a b _

theorem sleeps_append (a b : List Effect) :
    sleeps (a ++ b) = sleeps a ++ sleeps b :=
  List.filterMap_append a b _

theorem lookup_filter_ne {α : Type} (l : List (String × α)) (k : String) :
    (l.filter fun p => p.1 ≠ k).lookup k = none := by
  induction l with
  | nil => rfl
  | cons p t ih =>
    by_cases h : p.1 = k
    · simpa [List.filter, h] using ih
    · have hk : (k == p.1) = false := by
        simp [beq_iff_eq]
        exact fun hkk => h hkk.symm
      simpa [List.filter, h, List.lookup, hk] using ih

theorem sends_nil : sends [] = [] := rfl

theorem sends_cons_shell (c : String) (l : List Effect) :
    sends (.shell c :: l) = sends l := by
  simp [sends, List.filterMap_cons]

theorem sends_cons_sleep (ms : Nat) (l : List Effect) :
    sends (.sleep ms :: l) = sends l := by
  simp [sends, List.filterMap_cons]

theorem sends_cons_send (m : WsMsg) (l : List Effect) :
    sends (.send m :: l) = m :: sends l := by
  simp [sends, List.filterMap_cons]

theorem shells_cons_shell (c : String) (l : List Effect) :
    shells (.shell c :: l) = c :: shells l := by
  simp [shells, List.filterMap_cons]

theorem shells_cons_sleep (ms : Nat) (l : List Effect) :
    shells (.sleep ms :: l) = shells l := by
  simp [shells, List.filterMap_cons]

theorem shells_cons_send (m : WsMsg) (l : List Effect) :
    shells (.send m :: l) = shells l := by
  simp [shells, List.filterMap_cons]

theorem sleeps_cons_shell (c : String) (l : List Effect) :
    sleeps (.shell c :: l) = sleeps l := by
  simp [sleeps, List.filterMap_cons]

theorem sleeps_cons_sleep (ms : Nat) (l : List Effect) :
    sleeps (.sleep ms :: l) = ms :: sleeps l := by
  simp [sleeps, List.filterMap_cons]

theorem sleeps_cons_send (m : WsMsg) (l : List Effect) :
    sleeps (.send m :: l) = sleeps l := by
  simp [sleeps, List.filterMap_cons]

theorem pollLoop_sends (check : Nat → Bool) (cmd : String) (iv : Nat) :
    ∀ f a, sends (pollLoop check cmd iv a f).1 = [] := by
  intro f
  induction f with
  | zero => intro a; rfl
  | succ n ih =>
    intro a
    by_cases h : check a
    · simp [pollLoop, h, sends]
    · by_cases hn : 0 < n
      · simp [pollLoop, h, hn, sends_cons_shell, sends_cons_sleep, sends_append, ih]
      · simp [pollLoop, h, hn, sends_cons_shell, ih]

theorem pollLoop_shells (check : Nat → Bool) (cmd : String) (iv : Nat) :
    ∀ f a, ∃ k ≤ f, shells (pollLoop check cmd iv a f).1 = List.replicate k cmd := by
  intro f
  induction f with
  | zero => intro a; exact ⟨0, Nat.le_refl 0, rfl⟩
  | succ n ih =>
    intro a
    by_cases h : check a
    · exact ⟨1, Nat.succ_le_succ (Nat.zero_le n), by simp [pollLoop, h, shells]⟩
    · obtain ⟨k, hk, hrep⟩ := ih (a + 1)
      refine ⟨k + 1, Nat.succ_le_succ hk, ?_⟩
      by_cases hn : 0 < n
      · simp [pollLoop, h, hn, shells_cons_shell, shells_cons_sleep, shells_append,
              hrep, List.replicate_succ]
      · simp [pollLoop, h, hn, shells_cons_shell, hrep, List.replicate_succ]

theorem pollLoop_sleeps (check : Nat → Bool) (cmd : String) (iv : Nat) :
    ∀ f a, ∃ j, sleeps (pollLoop check cmd iv a f).1 = List.replicate j iv := by
  intro f
  induction f with
  | zero => intro a; exact ⟨0, rfl⟩
  | succ n ih =>
    intro a
    by_cases h : check a
    · exact ⟨0, by simp [pollLoop, h, sleeps]⟩
    · obtain ⟨j, hrep⟩ := ih (a + 1)
      by_cases hn : 0 < n
      · refine ⟨j + 1, ?_⟩
        simp [pollLoop, h, hn, sleeps_cons_shell, sleeps_cons_sleep, sleeps_append,
              hrep, List.replicate_succ]
      · refine ⟨j, ?_⟩
        simp [pollLoop, h, hn, sleeps_cons_shell, hrep]

theorem pollLoop_not_found (check : Nat → Bool) (cmd : String) (iv : Nat) :
    ∀ f a, (∀ j, j < f → check (a + j) = false) →
      (pollLoop check cmd iv a f).2 = false := by
  intro f
  induction f with
  | zero => intro a _; rfl
  | succ n ih =>
    intro a hall
    have h0 : check a = false := by simpa using hall 0 (Nat.succ_pos n)
    have hrest : (pollLoop check cmd iv (a + 1) n).2 = false := by
      refine ih (a + 1) fun j hj => ?_
      have := hall (j + 1) (Nat.succ_lt_succ hj)
      simpa [Nat.add_assoc, Nat.add_comm 1 j] using this
    simp [pollLoop, h0, hrest]

/-- C5: a zero-length binary control frame received for a session is
dropped: the control worker posts only an `error` notification (never a
`writeToSocket`), and the main thread's handling of that notification
leaves every session and client untouched. -/
theorem zero_length_control_frame_dropped :
    ∀ (scid clientId : String) (st : ServerState),
      workerOnMessage "controlData" (some []) scid clientId =
        [.error scid clientId "Empty control data"] ∧
      ((workerOnMessage "controlData" (some []) scid clientId).all
        fun o => !o.isWrite) = true ∧
      onWorkerError st = st := by
  intro scid clientId st
  exact ⟨rfl, rfl, rfl⟩

/-- C8: in `native_taskbar` mode the resolution applied via `wm size`
is the flipped `HxW`, and the applied DPI is
`min(d, round(H / 600 * 160))` — the request is replaced by the magic
DPI exactly when it strictly exceeds it and is never adjusted
upward. -/
theorem native_taskbar_flip_and_magic_dpi :
    ∀ (W H d : Nat),
      nativeTaskbarResolution W H = toString H ++ "x" ++ toString W ∧
      nativeTaskbarDpi H d = min d (calculatedMagicDpi H) ∧
      nativeTaskbarDpi H d ≤ d ∧
      (nativeTaskbarDpi H d ≠ d ↔ calculatedMagicDpi H < d) ∧
      calculatedMagicDpi H = (2 * (H * 160) + 600) / (2 * 600) := by
  intro W H d
  refine ⟨rfl, ?_, ?_, ?_, rfl⟩
  · unfold nativeTaskbarDpi
    rcases Nat.lt_or_ge (calculatedMagicDpi H) d with h | h
    · rw [if_pos h, Nat.min_def, if_neg (Nat.not_le.2 h)]
    · rw [if_neg (Nat.not_lt.2 h), Nat.min_def, if_pos h]
  · unfold nativeTaskbarDpi
    rcases Nat.lt_or_ge (calculatedMagicDpi H) d with h | h
    · rw [if_pos h]; exact Nat.le_of_lt h
    · rw [if_neg (Nat.not_lt.2 h)]
  · unfold nativeTaskbarDpi
    rcases Nat.lt_or_ge (calculatedMagicDpi H) d with h | h
    · rw [if_pos h]
      exact ⟨fun _ => h, fun _ => Nat.ne_of_lt h⟩
    · rw [if_neg (Nat.not_lt.2 h)]
      exact ⟨fun hd => absurd rfl hd, fun hd => absurd hd (Nat.not_lt.2 h)⟩

/-- Incremental probing finds the least free port at or above the
starting port whenever a free port exists in the probed range. -/
theorem probePort_finds (isFree : Nat → Bool) :
    ∀ (fuel start : Nat), (∃ j, j < fuel ∧ isFree (start + j) = true) →
      ∃ p, probePort isFree start fuel = some p ∧ isFree p = true ∧
        start ≤ p ∧ ∀ q, start ≤ q → q < p → isFree q = false := by
  intro fuel
  induction fuel with
  | zero => intro start h; exact absurd h.choose_spec.1 (Nat.not_lt_zero _)
  | succ n ih =>
    intro start h
    by_cases h0 : isFree start = true
    · refine ⟨start, ?_, h0, Nat.le_refl start, fun q hq hq2 => ?_⟩
      · simp [probePort, h0]
      · exact absurd (Nat.lt_of_le_of_lt hq hq2) (Nat.lt_irrefl start)
    · obtain ⟨j, hj, hfree⟩ := h
      have hj0 : j ≠ 0 := by
        intro h'
        rw [h'] at hfree
        exact h0 (by simpa using hfree)
      obtain ⟨j', rfl⟩ := Nat.exists_eq_succ_of_ne_zero hj0
      have hnext : ∃ j, j < n ∧ isFree (start + 1 + j) = true := by
        refine ⟨j', Nat.lt_of_succ_lt_succ hj, ?_⟩
        have : start + 1 + j' = start + (j' + 1) := by omega
        rw [this]; exact hfree
      obtain ⟨p, heq, hfp, hle, hmin⟩ := ih (start + 1) hnext
      refine ⟨p, ?_, hfp, Nat.le_trans (Nat.le_succ start) hle, fun q hq hq2 => ?_⟩
      · simpa [probePort, h0] using heq
      · by_cases hqs : q = start
        · rw [hqs]; exact Bool.eq_false_iff.2 h0
        · exact hmin q (by omega) hq2

/-- C3: the port picked by `handleStart` is
`SERVER_PORT_BASE + (liveSessions % 1000)`, and a collision is resolved
by probing ports incrementally until a free one is found (the probe
returns the least free port at or above the start). -/
theorem start_port_allocation :
    ∀ (base size : Nat) (isFree : Nat → Bool) (fuel start : Nat),
      handleStartPort base size = base + size % 1000 ∧
      ((∃ j, j < fuel ∧ isFree (start + j) = true) →
        ∃ p, probePort isFree start fuel = some p ∧ isFree p = true ∧
          start ≤ p ∧ ∀ q, start ≤ q → q < p → isFree q = false) :=
  fun _ _ isFree fuel start => ⟨rfl, probePort_finds isFree fuel start⟩

/-- Witness for C3: with `SERVER_PORT_BASE = 27183` and 1005 live
sessions the allocated port is `27183 + 5`, and probing from 27188 with
only 27190 free returns 27190. -/
theorem start_port_allocation_witness :
    handleStartPort 27183 1005 = 27183 + 1005 % 1000 ∧
    (∃ p, probePort (fun p => p == 27190) 27188 5 = some p ∧
      (fun p => p == 27190) p = true ∧ 27188 ≤ p ∧
      ∀ q, 27188 ≤ q → q < p → (fun p => p == 27190) q = false) := by
  have h := start_port_allocation 27183 1005 (fun p => p == 27190) 5 27188
  exact ⟨h.1, h.2 ⟨2, by decide, by decide⟩⟩

/-- The later record updates of `buildRunOptions` never touch `audio`,
so the serialized audio option is exactly the Android-version gate. -/
theorem buildRunOptions_audio (v : Nat) (m : StartMsg) :
    (buildRunOptions v m).audio =
      if v < 11 then "false" else jsStringOfBool m.enableAudio := by
  unfold buildRunOptions
  dsimp only
  simp only [apply_ite RunOptions.audio]
  cases m.maxFps <;> cases m.bitrate <;> simp

/-- C4: on a device below Android 11 the `audio` option serialized to
the device server is `"false"` regardless of the requested setting, and
a client that had requested audio receives, once session setup
succeeds, exactly the status message `"Audio disabled (Android < 11)"`. -/
theorem audio_forced_off_below_android_11 :
    ∀ (androidVersion : Nat) (m : StartMsg),
      androidVersion < 11 →
      (buildRunOptions androidVersion m).audio = "false" ∧
      "audio=false" ∈ serializeRunOptions (buildRunOptions androidVersion m) ∧
      (m.enableAudio = true →
        handleStartMessages androidVersion m (.ok ()) =
          [{ type := MESSAGE_TYPES_STATUS,
             message := some "Audio disabled (Android < 11)" }]) := by
  intro v m hv
  have haudio : (buildRunOptions v m).audio = "false" := by
    rw [buildRunOptions_audio, if_pos hv]
  refine ⟨haudio, ?_, fun hA => ?_⟩
  · simp only [serializeRunOptions]
    apply List.mem_append_left
    rw [haudio]
    exact List.mem_cons_of_mem _ (List.mem_cons_self _ _)
  · simp [handleStartMessages, hv, hA]

/-- Witness for C4: an Android 10 device with audio requested. -/
theorem audio_forced_off_below_android_11_witness :
    (10 : Nat) < 11 ∧
    (buildRunOptions 10 { enableAudio := true }).audio = "false" ∧
    "audio=false" ∈ serializeRunOptions (buildRunOptions 10 { enableAudio := true }) ∧
    handleStartMessages 10 { enableAudio := true } (.ok ()) =
      [{ type := MESSAGE_TYPES_STATUS,
         message := some "Audio disabled (Android < 11)" }] := by
  have h := audio_forced_off_below_android_11 10 { enableAudio := true } (by decide)
  exact ⟨by decide, h.1, h.2.1, h.2.2 rfl⟩

/-- C6 counterexample: for a sessionless client the status text the
server actually sends is `"No active stream to stop."` — with a
trailing period — so it is not the claimed `"No active stream to
stop"`. -/
theorem disconnect_status_text_counterexample :
    (handleClientDisconnectCommand "c1" exampleIdleState).2 =
      [{ type := MESSAGE_TYPES_STATUS,
         message := some "No active stream to stop." }] ∧
    ("No active stream to stop." : String) ≠ "No active stream to stop" := by
  exact ⟨rfl, by decide⟩

/-- C6 as amended: a `disconnect` from a connected, sessionless client
sends exactly one `status` message with text
`"No active stream to stop."` and returns the server state unchanged
(all maps and every client's session binding included). -/
theorem disconnect_without_session_noop :
    ∀ (st : ServerState) (clientId : String) (c : Client),
      st.client clientId = some c → c.session = none → c.wsOpen = true →
      handleClientDisconnectCommand clientId st =
        (st, [{ type := MESSAGE_TYPES_STATUS,
                message := some "No active stream to stop." }]) := by
  intro st clientId c hc hs ho
  simp [handleClientDisconnectCommand, hc, hs, ho]

/-- Witness for the amended C6 at the concrete idle state. -/
theorem disconnect_without_session_noop_witness :
    exampleIdleState.client "c1" = some { wsOpen := true, session := none } ∧
    handleClientDisconnectCommand "c1" exampleIdleState =
      (exampleIdleState,
       [{ type := MESSAGE_TYPES_STATUS,
          message := some "No active stream to stop." }]) := by
  refine ⟨rfl, ?_⟩
  exact disconnect_without_session_noop exampleIdleState "c1"
    { wsOpen := true, session := none } rfl rfl rfl

/-- C2 counterexample: when client `"c1"` — owner of session `"s1"`,
with an interactive shell, a diagnostics capture and a metrics interval
— disconnects, the close handler leaves its entries in `activeShells`,
`diagnosticsProcesses` and `metricsIntervals` behind. -/
theorem close_leaves_shell_entries_counterexample :
    (onWsClose "c1" exampleBusyState).activeShells = ["c1"] ∧
    (onWsClose "c1" exampleBusyState).diagnosticsProcesses = ["d1"] ∧
    (onWsClose "c1" exampleBusyState).metricsIntervals = ["c1"] := by
  exact ⟨rfl, rfl, rfl⟩

/-- C2 as amended: the WebSocket close handler cleans up the owned
session (the session record disappears) and removes the client from
`wsClients`, but cancels none of the client's interactive shells,
diagnostics or metrics processes — those maps are untouched. -/
theorem close_cleans_session_only :
    ∀ (st : ServerState) (clientId : String) (c : Client) (scid : String),
      st.client clientId = some c → c.session = some scid →
      (onWsClose clientId st).activeShells = st.activeShells ∧
      (onWsClose clientId st).diagnosticsProcesses = st.diagnosticsProcesses ∧
      (onWsClose clientId st).metricsIntervals = st.metricsIntervals ∧
      (onWsClose clientId st).wsClients.lookup clientId = none ∧
      (onWsClose clientId st).sessionOf scid = none := by
  intro st clientId c scid hc hs
  have hbind : (st.client clientId).bind Client.session = some scid := by
    rw [hc]; exact hs
  refine ⟨?_, ?_, ?_, ?_, ?_⟩
  · simp [onWsClose, hbind, cleanupSession]
  · simp [onWsClose, hbind, cleanupSession]
  · simp [onWsClose, hbind, cleanupSession]
  · simp only [onWsClose, hbind]
    exact lookup_filter_ne _ _
  · simp only [onWsClose, hbind, ServerState.sessionOf, cleanupSession]
    exact lookup_filter_ne _ _

/-- Witness for the amended C2 at the concrete busy state. -/
theorem close_cleans_session_only_witness :
    exampleBusyState.client "c1" =
      some { wsOpen := true, session := some "s1" } ∧
    ((onWsClose "c1" exampleBusyState).activeShells =
        exampleBusyState.activeShells ∧
      (onWsClose "c1" exampleBusyState).diagnosticsProcesses =
        exampleBusyState.diagnosticsProcesses ∧
      (onWsClose "c1" exampleBusyState).metricsIntervals =
        exampleBusyState.metricsIntervals ∧
      (onWsClose "c1" exampleBusyState).wsClients.lookup "c1" = none ∧
      (onWsClose "c1" exampleBusyState).sessionOf "s1" = none) := by
  refine ⟨rfl, ?_⟩
  exact close_cleans_session_only exampleBusyState "c1"
    { wsOpen := true, session := some "s1" } "s1" rfl rfl

theorem hexDigitChar_mem : ∀ m, m < 16 → hexDigitChar m ∈ hexLowerChars := by
  decide

theorem jsHexRev_length_le : ∀ (k n : Nat), n < 16 ^ k → (jsHexRev n).length ≤ k := by
  intro k
  induction k with
  | zero =>
    intro n hn
    have : n = 0 := by omega
    subst this
    simp [jsHexRev]
  | succ j ih =>
    intro n hn
    match n with
    | 0 => simp [jsHexRev]
    | m + 1 =>
      have hdiv : (m + 1) / 16 < 16 ^ j := by
        rw [Nat.div_lt_iff_lt_mul (by norm_num : (0 : Nat) < 16)]
        calc m + 1 < 16 ^ (j + 1) := hn
          _ = 16 ^ j * 16 := by rw [Nat.pow_succ]
      have := ih ((m + 1) / 16) hdiv
      simp only [jsHexRev, List.length_cons]
      omega

theorem jsHexRev_mem_hex : ∀ (n : Nat), ∀ c ∈ jsHexRev n, c ∈ hexLowerChars := by
  intro n
  induction n using Nat.strong_induction_on with
  | _ n ih =>
    match n with
    | 0 => intro c hc; simp [jsHexRev] at hc
    | m + 1 =>
      intro c hc
      simp only [jsHexRev, List.mem_cons] at hc
      rcases hc with h | h
      · rw [h]
        exact hexDigitChar_mem _ (Nat.mod_lt _ (by norm_num))
      · exact ih ((m + 1) / 16)
          (Nat.div_lt_self (Nat.succ_pos m) (by norm_num)) c h

theorem jsToStringHex_length_le (n : Nat) (hn : n < 16 ^ 8) :
    (jsToStringHex n).length ≤ 8 := by
  unfold jsToStringHex
  by_cases h : n = 0
  · rw [if_pos h]; decide
  · rw [if_neg h]
    have : (String.mk (jsHexRev n).reverse).length = (jsHexRev n).length := by
      simp [String.length]
    rw [this]
    exact jsHexRev_length_le 8 n hn

theorem jsToStringHex_mem_hex (n : Nat) :
    ∀ c ∈ (jsToStringHex n).toList, c ∈ hexLowerChars := by
  unfold jsToStringHex
  by_cases h : n = 0
  · intro c hc
    rw [if_pos h] at hc
    have hc0 : c = '0' := List.mem_singleton.mp hc
    rw [hc0]
    decide
  · intro c hc
    rw [if_neg h] at hc
    have : c ∈ (jsHexRev n).reverse := hc
    exact jsHexRev_mem_hex n c (List.mem_reverse.mp this)

theorem jsPadStart_length (s : String) (hs : s.length ≤ 8) :
    (jsPadStart s 8 '0').length = 8 := by
  unfold jsPadStart
  rw [String.length_append]
  have : (String.mk (List.replicate (8 - s.length) '0')).length = 8 - s.length := by
    show (List.replicate (8 - s.length) '0').length = 8 - s.length
    exact List.length_replicate _ _
  rw [this]
  omega

/-- C9: every session id produced by the generator shared by
`handleStart` and `adbListDisplays` is exactly 8 characters of
lowercase hexadecimal, and the underlying masked value is a 31-bit
number, for every possible 32-bit value of the 4 random bytes. -/
theorem scid_is_8_lowercase_hex :
    ∀ r : Nat, r < 2 ^ 32 →
      (scidOf r).length = 8 ∧
      (∀ c ∈ (scidOf r).toList, c ∈ hexLowerChars) ∧
      r &&& 0x7fffffff < 2 ^ 31 := by
  intro r _
  have hmask : r &&& 0x7fffffff < 2 ^ 31 := by
    have h := Nat.and_le_right (n := r) (m := 0x7fffffff)
    omega
  have hlt : r &&& 0x7fffffff < 16 ^ 8 := by
    have : (2 : Nat) ^ 31 < 16 ^ 8 := by norm_num
    omega
  refine ⟨?_, ?_, hmask⟩
  · exact jsPadStart_length _ (jsToStringHex_length_le _ hlt)
  · intro c hc
    unfold scidOf jsPadStart at hc
    have hc2 : c ∈ (String.mk (List.replicate
        (8 - (jsToStringHex (r &&& 0x7fffffff)).length) '0')).data ++
        (jsToStringHex (r &&& 0x7fffffff)).data := by
      have := String.data_append (String.mk (List.replicate
        (8 - (jsToStringHex (r &&& 0x7fffffff)).length) '0'))
        (jsToStringHex (r &&& 0x7fffffff))
      rw [← this]
      exact hc
    rcases List.mem_append.mp hc2 with h | h
    · have : c = '0' := List.eq_of_mem_replicate h
      rw [this]; decide
    · exact jsToStringHex_mem_hex _ c h

/-- Witness for C9 at the concrete random draw `0xdeadbeef`. -/
theorem scid_is_8_lowercase_hex_witness :
    (3735928559 : Nat) < 2 ^ 32 ∧
    (scidOf 3735928559).length = 8 ∧
    (∀ c ∈ (scidOf 3735928559).toList, c ∈ hexLowerChars) ∧
    3735928559 &&& 0x7fffffff < 2 ^ 31 := by
  have h := scid_is_8_lowercase_hex 3735928559 (by norm_num)
  exact ⟨by norm_num, h.1, h.2.1, h.2.2⟩

theorem shells_send_singleton (m : WsMsg) : shells [.send m] = [] := rfl

theorem sleeps_send_singleton (m : WsMsg) : sleeps [.send m] = [] := rfl

theorem sends_send_singleton (m : WsMsg) : sends [.send m] = [m] := rfl

/-- C7: for `wifiToggle` with `enable = true` on an active session, the
Wi-Fi state is polled at most 10 times and the SSID at most 15 times,
every wait between attempts is 500 ms, exactly one `wifiResponse` is
sent, and if Wi-Fi never reports enabled within the 10 attempts — or no
SSID resolves within the 15 — that response has `success = false`.  The
procedure is a total function, so it terminates on every input. -/
theorem wifi_toggle_bounded_polling :
    ∀ (st : ServerState) (clientId : String) (c : Client) (scid : String)
      (sess : Session) (dev : String) (m : WifiToggleMsg)
      (wifiOn : Nat → Bool) (ssidOut : Nat → String) (dis : Bool),
      st.client clientId = some c → c.session = some scid →
      st.sessionOf scid = some sess → sess.deviceId = some dev →
      m.enable = some true →
      ((shells (handleWifiToggleCommand st clientId m wifiOn ssidOut dis)).count
          wifiStatusCmd ≤ 10) ∧
      ((shells (handleWifiToggleCommand st clientId m wifiOn ssidOut dis)).count
          wifiSsidCmd ≤ 15) ∧
      (∀ ms ∈ sleeps (handleWifiToggleCommand st clientId m wifiOn ssidOut dis),
        ms = 500) ∧
      (∃ w, sends (handleWifiToggleCommand st clientId m wifiOn ssidOut dis) = [w]) ∧
      ((∀ i, i < 10 → wifiOn i = false) →
        sends (handleWifiToggleCommand st clientId m wifiOn ssidOut dis) =
          [{ type := MESSAGE_TYPES_WIFI_RESPONSE, success := some false,
             error := some "Wi-Fi failed to enable" }]) ∧
      ((∀ i, i < 15 →
          ¬((ssidOut i).trim ≠ "" ∧ (ssidOut i).trim ≠ "<unknown ssid>")) →
        ∃ w, sends (handleWifiToggleCommand st clientId m wifiOn ssidOut dis) = [w] ∧
          w.success = some false) := by
  intro st clientId c scid sess dev m wifiOn ssidOut dis hc hs hsess hdev hm
  have hE : handleWifiToggleCommand st clientId m wifiOn ssidOut dis =
      .shell "svc wifi enable" ::
      (pollLoop wifiOn wifiStatusCmd 500 0 10).1 ++
      (if (pollLoop wifiOn wifiStatusCmd 500 0 10).2 = false then
        [.send { type := MESSAGE_TYPES_WIFI_RESPONSE, success := some false,
                 error := some "Wi-Fi failed to enable" }]
      else
        (pollLoop (fun i => decide ((ssidOut i).trim ≠ "" ∧
          (ssidOut i).trim ≠ "<unknown ssid>")) wifiSsidCmd 500 0 15).1 ++
        (if (pollLoop (fun i => decide ((ssidOut i).trim ≠ "" ∧
            (ssidOut i).trim ≠ "<unknown ssid>")) wifiSsidCmd 500 0 15).2 = false then
          [.send { type := MESSAGE_TYPES_WIFI_RESPONSE, success := some false,
                   error := some "Failed to connect to SSID" }]
        else
          [.send { type := MESSAGE_TYPES_WIFI_RESPONSE, success := some true }])) := by
    simp only [handleWifiToggleCommand, hc, hs, hsess, hdev, hm, Option.bind]
  obtain ⟨k, hk, hks⟩ := pollLoop_shells wifiOn wifiStatusCmd 500 10 0
  obtain ⟨k2, hk2, hks2⟩ := pollLoop_shells
    (fun i => decide ((ssidOut i).trim ≠ "" ∧
      (ssidOut i).trim ≠ "<unknown ssid>")) wifiSsidCmd 500 15 0
  obtain ⟨j1, hj1⟩ := pollLoop_sleeps wifiOn wifiStatusCmd 500 10 0
  obtain ⟨j2, hj2⟩ := pollLoop_sleeps
    (fun i => decide ((ssidOut i).trim ≠ "" ∧
      (ssidOut i).trim ≠ "<unknown ssid>")) wifiSsidCmd 500 15 0
  have hsend1 := pollLoop_sends wifiOn wifiStatusCmd 500 10 0
  have hsend2 := pollLoop_sends
    (fun i => decide ((ssidOut i).trim ≠ "" ∧
      (ssidOut i).trim ≠ "<unknown ssid>")) wifiSsidCmd 500 15 0
  by_cases hOn : (pollLoop wifiOn wifiStatusCmd 500 0 10).2 = false
  · -- Wi-Fi never confirmed: single failure response after the state polls.
    have hEff : handleWifiToggleCommand st clientId m wifiOn ssidOut dis =
        .shell "svc wifi enable" :: (pollLoop wifiOn wifiStatusCmd 500 0 10).1 ++
        [.send { type := MESSAGE_TYPES_WIFI_RESPONSE, success := some false,
                 error := some "Wi-Fi failed to enable" }] := by
      rw [hE, if_pos hOn]
    have hShells : shells (handleWifiToggleCommand st clientId m wifiOn ssidOut dis) =
        "svc wifi enable" :: List.replicate k wifiStatusCmd := by
      rw [hEff, shells_append, shells_cons_shell, hks, shells_send_singleton,
          List.append_nil]
    have hSleeps : sleeps (handleWifiToggleCommand st clientId m wifiOn ssidOut dis) =
        List.replicate j1 500 := by
      rw [hEff, sleeps_append, sleeps_cons_shell, hj1, sleeps_send_singleton,
          List.append_nil]
    have hSends : sends (handleWifiToggleCommand st clientId m wifiOn ssidOut dis) =
        [{ type := MESSAGE_TYPES_WIFI_RESPONSE, success := some false,
           error := some "Wi-Fi failed to enable" }] := by
      rw [hEff, sends_append, sends_cons_shell, hsend1, sends_send_singleton,
          List.nil_append]
    refine ⟨?_, ?_, ?_, ⟨_, hSends⟩, fun _ => hSends, fun _ => ⟨_, hSends, rfl⟩⟩
    · rw [hShells]
      have e1 : ("svc wifi enable" == wifiStatusCmd) = false := by decide
      have e2 : (wifiStatusCmd == wifiStatusCmd) = true := by decide
      simp [List.count_cons, List.count_replicate, e1, e2] <;> omega
    · rw [hShells]
      have e1 : ("svc wifi enable" == wifiSsidCmd) = false := by decide
      have e2 : (wifiStatusCmd == wifiSsidCmd) = false := by decide
      simp [List.count_cons, List.count_replicate, e1, e2] <;> omega
    · intro ms hms
      rw [hSleeps] at hms
      exact List.eq_of_mem_replicate hms
  · -- Wi-Fi confirmed: the SSID phase decides the response.
    have hOnT : (pollLoop wifiOn wifiStatusCmd 500 0 10).2 = true := by
      revert hOn; cases (pollLoop wifiOn wifiStatusCmd 500 0 10).2 <;> simp
    have hNotAll : (∀ i, i < 10 → wifiOn i = false) → False := by
      intro hall
      have := pollLoop_not_found wifiOn wifiStatusCmd 500 10 0
        fun j hj => by simpa using hall j hj
      rw [this] at hOnT
      exact Bool.noConfusion hOnT
    by_cases hSsid : (pollLoop (fun i => decide ((ssidOut i).trim ≠ "" ∧
        (ssidOut i).trim ≠ "<unknown ssid>")) wifiSsidCmd 500 0 15).2 = false
    · -- no SSID resolved: single failure response.
      have hEff : handleWifiToggleCommand st clientId m wifiOn ssidOut dis =
          .shell "svc wifi enable" :: (pollLoop wifiOn wifiStatusCmd 500 0 10).1 ++
          ((pollLoop (fun i => decide ((ssidOut i).trim ≠ "" ∧
            (ssidOut i).trim ≠ "<unknown ssid>")) wifiSsidCmd 500 0 15).1 ++
           [.send { type := MESSAGE_TYPES_WIFI_RESPONSE, success := some false,
                    error := some "Failed to connect to SSID" }]) := by
        rw [hE, if_neg (by rw [hOnT]; exact Bool.noConfusion), if_pos hSsid]
      have hShells : shells (handleWifiToggleCommand st clientId m wifiOn ssidOut dis) =
          "svc wifi enable" :: (List.replicate k wifiStatusCmd ++
            List.replicate k2 wifiSsidCmd) := by
        rw [hEff, shells_append, shells_append, shells_cons_shell, hks, hks2,
            shells_send_singleton, List.append_nil, List.cons_append]
      have hSleeps : sleeps (handleWifiToggleCommand st clientId m wifiOn ssidOut dis) =
          List.replicate j1 500 ++ List.replicate j2 500 := by
        rw [hEff, sleeps_append, sleeps_append, sleeps_cons_shell, hj1, hj2,
            sleeps_send_singleton, List.append_nil]
      have hSends : sends (handleWifiToggleCommand st clientId m wifiOn ssidOut dis) =
          [{ type := MESSAGE_TYPES_WIFI_RESPONSE, success := some false,
             error := some "Failed to connect to SSID" }] := by
        rw [hEff, sends_append, sends_append, sends_cons_shell, hsend1, hsend2,
            sends_send_singleton, List.nil_append, List.nil_append]
      refine ⟨?_, ?_, ?_, ⟨_, hSends⟩, fun hall => (hNotAll hall).elim,
        fun _ => ⟨_, hSends, rfl⟩⟩
      · rw [hShells]
        have e1 : ("svc wifi enable" == wifiStatusCmd) = false := by decide
        have e2 : (wifiStatusCmd == wifiStatusCmd) = true := by decide
        have e3 : (wifiSsidCmd == wifiStatusCmd) = false := by decide
        simp [List.count_cons, List.count_append, List.count_replicate,
              e1, e2, e3] <;> omega
      · rw [hShells]
        have e1 : ("svc wifi enable" == wifiSsidCmd) = false := by decide
        have e2 : (wifiStatusCmd == wifiSsidCmd) = false := by decide
        have e3 : (wifiSsidCmd == wifiSsidCmd) = true := by decide
        simp [List.count_cons, List.count_append, List.count_replicate,
              e1, e2, e3] <;> omega
      · intro ms hms
        rw [hSleeps] at hms
        rcases List.mem_append.mp hms with h | h <;>
          exact List.eq_of_mem_replicate h
    · -- SSID resolved: single success response.
      have hEff : handleWifiToggleCommand st clientId m wifiOn ssidOut dis =
          .shell "svc wifi enable" :: (pollLoop wifiOn wifiStatusCmd 500 0 10).1 ++
          ((pollLoop (fun i => decide ((ssidOut i).trim ≠ "" ∧
            (ssidOut i).trim ≠ "<unknown ssid>")) wifiSsidCmd 500 0 15).1 ++
           [.send { type := MESSAGE_TYPES_WIFI_RESPONSE, success := some true }]) := by
        rw [hE, if_neg (by rw [hOnT]; exact Bool.noConfusion), if_neg hSsid]
      have hSsidT : (pollLoop (fun i => decide ((ssidOut i).trim ≠ "" ∧
          (ssidOut i).trim ≠ "<unknown ssid>")) wifiSsidCmd 500 0 15).2 = true := by
        revert hSsid
        cases (pollLoop (fun i => decide ((ssidOut i).trim ≠ "" ∧
          (ssidOut i).trim ≠ "<unknown ssid>")) wifiSsidCmd 500 0 15).2 <;> simp
      have hShells : shells (handleWifiToggleCommand st clientId m wifiOn ssidOut dis) =
          "svc wifi enable" :: (List.replicate k wifiStatusCmd ++
            List.replicate k2 wifiSsidCmd) := by
        rw [hEff, shells_append, shells_append, shells_cons_shell, hks, hks2,
            shells_send_singleton, List.append_nil, List.cons_append]
      have hSleeps : sleeps (handleWifiToggleCommand st clientId m wifiOn ssidOut dis) =
          List.replicate j1 500 ++ List.replicate j2 500 := by
        rw [hEff, sleeps_append, sleeps_append, sleeps_cons_shell, hj1, hj2,
            sleeps_send_singleton, List.append_nil]
      have hSends : sends (handleWifiToggleCommand st clientId m wifiOn ssidOut dis) =
          [{ type := MESSAGE_TYPES_WIFI_RESPONSE, success := some true }] := by
        rw [hEff, sends_append, sends_append, sends_cons_shell, hsend1, hsend2,
            sends_send_singleton, List.nil_append, List.nil_append]
      have hNoSsid : (∀ i, i < 15 →
          ¬((ssidOut i).trim ≠ "" ∧ (ssidOut i).trim ≠ "<unknown ssid>")) → False := by
        intro hall
        have := pollLoop_not_found (fun i => decide ((ssidOut i).trim ≠ "" ∧
          (ssidOut i).trim ≠ "<unknown ssid>")) wifiSsidCmd 500 15 0
          fun j hj => by simpa using hall j hj
        rw [this] at hSsidT
        exact Bool.noConfusion hSsidT
      refine ⟨?_, ?_, ?_, ⟨_, hSends⟩, fun hall => (hNotAll hall).elim,
        fun hall => (hNoSsid hall).elim⟩
      · rw [hShells]
        have e1 : ("svc wifi enable" == wifiStatusCmd) = false := by decide
        have e2 : (wifiStatusCmd == wifiStatusCmd) = true := by decide
        have e3 : (wifiSsidCmd == wifiStatusCmd) = false := by decide
        simp [List.count_cons, List.count_append, List.count_replicate,
              e1, e2, e3] <;> omega
      · rw [hShells]
        have e1 : ("svc wifi enable" == wifiSsidCmd) = false := by decide
        have e2 : (wifiStatusCmd == wifiSsidCmd) = false := by decide
        have e3 : (wifiSsidCmd == wifiSsidCmd) = true := by decide
        simp [List.count_cons, List.count_append, List.count_replicate,
              e1, e2, e3] <;> omega
      · intro ms hms
        rw [hSleeps] at hms
        rcases List.mem_append.mp hms with h | h <;>
          exact List.eq_of_mem_replicate h

/-- Witness for C7: on the concrete busy state with Wi-Fi that never
reports enabled, the single response is the `success = false`
`"Wi-Fi failed to enable"` message. -/
theorem wifi_toggle_bounded_polling_witness :
    exampleBusyState.client "c1" = some { wsOpen := true, session := some "s1" } ∧
    sends (handleWifiToggleCommand exampleBusyState "c1" { enable := some true }
        (fun _ => false) (fun _ => "") false) =
      [{ type := MESSAGE_TYPES_WIFI_RESPONSE, success := some false,
         error := some "Wi-Fi failed to enable" }] := by
  have h := wifi_toggle_bounded_polling exampleBusyState "c1"
    { wsOpen := true, session := some "s1" } "s1"
    { deviceId := some "d1", androidVersion := some 13 } "d1"
    { enable := some true } (fun _ => false) (fun _ => "") false
    rfl rfl rfl rfl rfl
  exact ⟨rfl, h.2.2.2.2.1 fun i _ => rfl⟩

/-- C10: every device-control command issued by a connected client that
has no active session is rejected with a single failure response whose
error is `"No active session"`, and no ADB shell command is run — for
all seven handlers: volume, getVolume, navAction, wifiToggle,
getWifiStatus, getBatteryLevel and launchApp. -/
theorem no_session_rejects_device_commands :
    ∀ (st : ServerState) (clientId : String) (c : Client)
      (vm : VolumeMsg) (setVolume : Except String String)
      (getInfo : Except String (Nat × Nat))
      (nm : NavMsg) (navKeycodes : String → Option Nat)
      (navShell : Except String Unit)
      (wm : WifiToggleMsg) (wifiOn : Nat → Bool) (ssidOut : Nat → String)
      (dis : Bool) (statusOutput ssidOutput : String)
      (battery : Except String Nat)
      (lm : LaunchAppMsg) (launchShell : Except String Unit),
      st.client clientId = some c → c.session = none →
      noSessionReject (handleVolumeCommand st clientId vm setVolume)
        MESSAGE_TYPES_VOLUME_RESPONSE ∧
      noSessionReject (handleGetVolumeCommand st clientId getInfo)
        MESSAGE_TYPES_VOLUME_INFO ∧
      noSessionReject (handleNavAction st clientId nm navKeycodes navShell)
        MESSAGE_TYPES_NAV_RESPONSE ∧
      noSessionReject (handleWifiToggleCommand st clientId wm wifiOn ssidOut dis)
        MESSAGE_TYPES_WIFI_RESPONSE ∧
      noSessionReject (handleGetWifiStatusCommand st clientId statusOutput ssidOutput)
        MESSAGE_TYPES_WIFI_STATUS ∧
      noSessionReject (handleGetBatteryLevelCommand st clientId battery)
        MESSAGE_TYPES_BATTERY_INFO ∧
      noSessionReject (handleLaunchApp st clientId lm launchShell)
        MESSAGE_TYPES_LAUNCH_APP_RESPONSE := by
  intro st clientId c vm setVolume getInfo nm navKeycodes navShell wm wifiOn
    ssidOut dis statusOutput ssidOutput battery lm launchShell hc hs
  have h1 : handleVolumeCommand st clientId vm setVolume =
      [.send { type := MESSAGE_TYPES_VOLUME_RESPONSE, success := some false,
               error := some "No active session" }] := by
    simp [handleVolumeCommand, hc, hs]
  have h2 : handleGetVolumeCommand st clientId getInfo =
      [.send { type := MESSAGE_TYPES_VOLUME_INFO, success := some false,
               error := some "No active session" }] := by
    simp [handleGetVolumeCommand, hc, hs]
  have h3 : handleNavAction st clientId nm navKeycodes navShell =
      [.send { type := MESSAGE_TYPES_NAV_RESPONSE, success := some false,
               error := some "No active session" }] := by
    simp [handleNavAction, hc, hs]
  have h4 : handleWifiToggleCommand st clientId wm wifiOn ssidOut dis =
      [.send { type := MESSAGE_TYPES_WIFI_RESPONSE, success := some false,
               error := some "No active session" }] := by
    simp [handleWifiToggleCommand, hc, hs]
  have h5 : handleGetWifiStatusCommand st clientId statusOutput ssidOutput =
      [.send { type := MESSAGE_TYPES_WIFI_STATUS, success := some false,
               error := some "No active session" }] := by
    simp [handleGetWifiStatusCommand, hc, hs]
  have h6 : handleGetBatteryLevelCommand st clientId battery =
      [.send { type := MESSAGE_TYPES_BATTERY_INFO, success := some false,
               error := some "No active session" }] := by
    simp [handleGetBatteryLevelCommand, hc, hs]
  have h7 : handleLaunchApp st clientId lm launchShell =
      [.send { type := MESSAGE_TYPES_LAUNCH_APP_RESPONSE, success := some false,
               error := some "No active session" }] := by
    simp [handleLaunchApp, hc, hs]
  exact ⟨⟨h1, by rw [h1]; rfl⟩, ⟨h2, by rw [h2]; rfl⟩, ⟨h3, by rw [h3]; rfl⟩,
    ⟨h4, by rw [h4]; rfl⟩, ⟨h5, by rw [h5]; rfl⟩, ⟨h6, by rw [h6]; rfl⟩,
    ⟨h7, by rw [h7]; rfl⟩⟩

/-- Witness for C10: the concrete idle state, a client connected with no
session. -/
theorem no_session_rejects_device_commands_witness :
    exampleIdleState.client "c1" = some { wsOpen := true, session := none } ∧
    (noSessionReject (handleVolumeCommand exampleIdleState "c1"
        { value := some 50, valueRaw := "50", commandId := some "cmd-1" } (.ok ""))
      MESSAGE_TYPES_VOLUME_RESPONSE ∧
    noSessionReject (handleGetVolumeCommand exampleIdleState "c1" (.ok (15, 7)))
      MESSAGE_TYPES_VOLUME_INFO ∧
    noSessionReject (handleNavAction exampleIdleState "c1" { key := "back" }
        (fun _ => some 4) (.ok ())) MESSAGE_TYPES_NAV_RESPONSE ∧
    noSessionReject (handleWifiToggleCommand exampleIdleState "c1"
        { enable := some true } (fun _ => true) (fun _ => "net") false)
      MESSAGE_TYPES_WIFI_RESPONSE ∧
    noSessionReject (handleGetWifiStatusCommand exampleIdleState "c1"
        "Wi-Fi is enabled" "net") MESSAGE_TYPES_WIFI_STATUS ∧
    noSessionReject (handleGetBatteryLevelCommand exampleIdleState "c1" (.ok 80))
      MESSAGE_TYPES_BATTERY_INFO ∧
    noSessionReject (handleLaunchApp exampleIdleState "c1"
        { packageName := some "com.android.chrome" } (.ok ()))
      MESSAGE_TYPES_LAUNCH_APP_RESPONSE) := by
  refine ⟨rfl, ?_⟩
  exact no_session_rejects_device_commands exampleIdleState "c1"
    { wsOpen := true, session := none }
    { value := some 50, valueRaw := "50", commandId := some "cmd-1" } (.ok "")
    (.ok (15, 7)) { key := "back" } (fun _ => some 4) (.ok ())
    { enable := some true } (fun _ => true) (fun _ => "net") false
    "Wi-Fi is enabled" "net" (.ok 80)
    { packageName := some "com.android.chrome" } (.ok ()) rfl rfl

theorem handleVolumeCommand_sends_no_commandId (st : ServerState)
    (clientId : String) (vm : VolumeMsg) (sv : Except String String) :
    ∀ w ∈ sends (handleVolumeCommand st clientId vm sv), w.commandId = none := by
  intro w hw
  unfold handleVolumeCommand at hw
  repeat'
    first
      | split at hw
      | simp only [sends_cons_shell, sends_cons_send, sends_nil,
          List.mem_singleton, List.not_mem_nil] at hw
  all_goals first
    | exact absurd hw (fun h => h)
    | (subst hw; rfl)

theorem handleGetVolumeCommand_sends_no_commandId (st : ServerState)
    (clientId : String) (getInfo : Except String (Nat × Nat)) :
    ∀ w ∈ sends (handleGetVolumeCommand st clientId getInfo),
      w.commandId = none := by
  intro w hw
  unfold handleGetVolumeCommand at hw
  repeat'
    first
      | split at hw
      | simp only [sends_cons_shell, sends_cons_send, sends_nil,
          List.mem_singleton, List.not_mem_nil] at hw
  all_goals first
    | exact absurd hw (fun h => h)
    | (subst hw; rfl)

theorem handleNavAction_sends_no_commandId (st : ServerState)
    (clientId : String) (nm : NavMsg) (navKeycodes : String → Option Nat)
    (navShell : Except String Unit) :
    ∀ w ∈ sends (handleNavAction st clientId nm navKeycodes navShell),
      w.commandId = none := by
  intro w hw
  unfold handleNavAction at hw
  repeat'
    first
      | split at hw
      | simp only [sends_cons_shell, sends_cons_send, sends_nil,
          List.mem_singleton, List.not_mem_nil] at hw
  all_goals first
    | exact absurd hw (fun h => h)
    | (subst hw; rfl)

theorem handleWifiToggleCommand_sends_no_commandId (st : ServerState)
    (clientId : String) (m : WifiToggleMsg) (wifiOn : Nat → Bool)
    (ssidOut : Nat → String) (dis : Bool) :
    ∀ w ∈ sends (handleWifiToggleCommand st clientId m wifiOn ssidOut dis),
      w.commandId = none := by
  intro w hw
  unfold handleWifiToggleCommand at hw
  repeat'
    first
      | split at hw
      | simp only [sends_append, sends_cons_shell, sends_cons_sleep,
          sends_cons_send, sends_nil, pollLoop_sends, sends_send_singleton,
          List.nil_append, List.append_nil, List.mem_singleton,
          List.not_mem_nil] at hw
  all_goals first
    | exact absurd hw (fun h => h)
    | (subst hw; rfl)

theorem handleGetWifiStatusCommand_sends_no_commandId (st : ServerState)
    (clientId : String) (statusOutput ssidOutput : String) :
    ∀ w ∈ sends (handleGetWifiStatusCommand st clientId statusOutput ssidOutput),
      w.commandId = none := by
  intro w hw
  unfold handleGetWifiStatusCommand at hw
  repeat'
    first
      | split at hw
      | simp only [sends_cons_shell, sends_cons_send, sends_nil,
          List.mem_singleton, List.not_mem_nil] at hw
  all_goals first
    | exact absurd hw (fun h => h)
    | (subst hw; rfl)

theorem handleGetBatteryLevelCommand_sends_no_commandId (st : ServerState)
    (clientId : String) (battery : Except String Nat) :
    ∀ w ∈ sends (handleGetBatteryLevelCommand st clientId battery),
      w.commandId = none := by
  intro w hw
  unfold handleGetBatteryLevelCommand at hw
  repeat'
    first
      | split at hw
      | simp only [sends_cons_shell, sends_cons_send, sends_nil,
          List.mem_singleton, List.not_mem_nil] at hw
  all_goals first
    | exact absurd hw (fun h => h)
    | (subst hw; rfl)

theorem handleLaunchApp_sends_no_commandId (st : ServerState)
    (clientId : String) (lm : LaunchAppMsg) (launchShell : Except String Unit) :
    ∀ w ∈ sends (handleLaunchApp st clientId lm launchShell),
      w.commandId = none := by
  intro w hw
  unfold handleLaunchApp at hw
  repeat'
    first
      | split at hw
      | simp only [sends_cons_shell, sends_cons_send, sends_nil,
          List.mem_singleton, List.not_mem_nil] at hw
  all_goals first
    | exact absurd hw (fun h => h)
    | (subst hw; rfl)

theorem adbCommandSwitch_sends_nil (exec : String → AdbResult)
    (listDisplaysResult : AdbResult) (rot : Option RotState) (m : AdbCmdMsg) :
    sends (adbCommandSwitch exec listDisplaysResult rot m).1 = [] := by
  unfold adbCommandSwitch
  repeat' split
  all_goals rfl

/-- C1 counterexample: a `volume` command carrying
`commandId = "cmd-1"` on an active session is answered by exactly one
response — and that response does not include the commandId. -/
theorem commandId_not_echoed_counterexample :
    (sends (handleVolumeCommand exampleBusyState "c1"
        { value := some 50, valueRaw := "50", commandId := some "cmd-1" }
        (.ok "cmd media_session volume --set 8 --stream 3"))).map
      WsMsg.commandId = [none] ∧
    (some "cmd-1" : Option String) ≠ none := by
  exact ⟨rfl, by decide⟩

/-- C1 as amended: only `adbCommand` echoes `commandId` — its handler
always sends exactly one response whose `commandId` equals the
command's and whose type is `commandType ++ "Response"`, while the
responses of the other device-control handlers (volume, getVolume,
navAction, wifiToggle, getWifiStatus, getBatteryLevel, launchApp)
never carry a `commandId`. -/
theorem adbCommand_echoes_commandId_exclusively :
    ∀ (exec : String → AdbResult) (listDisplaysResult : AdbResult)
      (rot : Option RotState) (thrown : Option String) (m : AdbCmdMsg)
      (st : ServerState) (clientId : String)
      (vm : VolumeMsg) (sv : Except String String)
      (getInfo : Except String (Nat × Nat))
      (nm : NavMsg) (navKeycodes : String → Option Nat)
      (navShell : Except String Unit)
      (wm : WifiToggleMsg) (wifiOn : Nat → Bool) (ssidOut : Nat → String)
      (dis : Bool) (statusOutput ssidOutput : String)
      (battery : Except String Nat)
      (lm : LaunchAppMsg) (launchShell : Except String Unit),
      ((sends (handleAdbCommand exec listDisplaysResult rot thrown m).1).map
          WsMsg.commandId = [m.commandId] ∧
        (sends (handleAdbCommand exec listDisplaysResult rot thrown m).1).map
          WsMsg.type = [m.commandType ++ "Response"]) ∧
      (∀ w ∈ sends (handleVolumeCommand st clientId vm sv),
        w.commandId = none) ∧
      (∀ w ∈ sends (handleGetVolumeCommand st clientId getInfo),
        w.commandId = none) ∧
      (∀ w ∈ sends (handleNavAction st clientId nm navKeycodes navShell),
        w.commandId = none) ∧
      (∀ w ∈ sends (handleWifiToggleCommand st clientId wm wifiOn ssidOut dis),
        w.commandId = none) ∧
      (∀ w ∈ sends (handleGetWifiStatusCommand st clientId statusOutput
          ssidOutput), w.commandId = none) ∧
      (∀ w ∈ sends (handleGetBatteryLevelCommand st clientId battery),
        w.commandId = none) ∧
      (∀ w ∈ sends (handleLaunchApp st clientId lm launchShell),
        w.commandId = none) := by
  intro exec listDisplaysResult rot thrown m st clientId vm sv getInfo nm
    navKeycodes navShell wm wifiOn ssidOut dis statusOutput ssidOutput battery
    lm launchShell
  refine ⟨?_,
    handleVolumeCommand_sends_no_commandId st clientId vm sv,
    handleGetVolumeCommand_sends_no_commandId st clientId getInfo,
    handleNavAction_sends_no_commandId st clientId nm navKeycodes navShell,
    handleWifiToggleCommand_sends_no_commandId st clientId wm wifiOn ssidOut dis,
    handleGetWifiStatusCommand_sends_no_commandId st clientId statusOutput
      ssidOutput,
    handleGetBatteryLevelCommand_sends_no_commandId st clientId battery,
    handleLaunchApp_sends_no_commandId st clientId lm launchShell⟩
  rcases hD : m.deviceId with _ | d
  · constructor <;> simp [handleAdbCommand, hD, sends_send_singleton]
  · rcases hT : thrown with _ | e <;> subst hT
    · have hs : sends (handleAdbCommand exec listDisplaysResult rot none m).1 =
          sends (adbCommandSwitch exec listDisplaysResult rot m).1 ++
          [{ type := m.commandType ++ "Response", commandId := m.commandId,
             success := some (adbCommandSwitch exec listDisplaysResult rot m).2.1.success,
             error := (adbCommandSwitch exec listDisplaysResult rot m).2.1.error,
             message := (adbCommandSwitch exec listDisplaysResult rot m).2.1.message,
             output := (adbCommandSwitch exec listDisplaysResult rot m).2.1.output }] := by
        simp only [handleAdbCommand, hD, sends_append, sends_send_singleton]
      rw [hs, adbCommandSwitch_sends_nil, List.nil_append]
      exact ⟨rfl, rfl⟩
    · have hs : sends (handleAdbCommand exec listDisplaysResult rot (some e) m).1 =
          [{ type := m.commandType ++ "Response", commandId := m.commandId,
             success := some false, error := some e }] := by
        simp only [handleAdbCommand, hD, List.nil_append]
        rfl
      rw [hs]
      exact ⟨rfl, rfl⟩

/-- Witness for the amended C1: a `setWmSize` adbCommand with
`commandId = "cmd-9"` is answered once with the same id and type
`setWmSizeResponse`; the concrete `volume` response at the busy state
has no commandId. -/
theorem adbCommand_echoes_commandId_exclusively_witness :
    ((sends (handleAdbCommand (fun _ => { success := true })
        { success := true } none none
        { commandType := "setWmSize", deviceId := some "d1",
          commandId := some "cmd-9", resolution := "900x1600" }).1).map
      WsMsg.commandId = [some "cmd-9"] ∧
      (sends (handleAdbCommand (fun _ => { success := true })
        { success := true } none none
        { commandType := "setWmSize", deviceId := some "d1",
          commandId := some "cmd-9", resolution := "900x1600" }).1).map
      WsMsg.type = ["setWmSize" ++ "Response"]) ∧
    ({ type := MESSAGE_TYPES_VOLUME_RESPONSE,
       success := some true } : WsMsg).commandId = none := by
  have h := adbCommand_echoes_commandId_exclusively (fun _ => { success := true })
    { success := true } none none
    { commandType := "setWmSize", deviceId := some "d1",
      commandId := some "cmd-9", resolution := "900x1600" }
    exampleBusyState "c1"
    { value := some 50, valueRaw := "50", commandId := some "cmd-1" }
    (.ok "cmd media_session volume --set 8 --stream 3")
    (.ok (15, 7)) { key := "back" } (fun _ => some 4) (.ok ())
    { enable := some true } (fun _ => true) (fun _ => "net") false
    "Wi-Fi is enabled" "net" (.ok 80)
    { packageName := some "com.android.chrome" } (.ok ())
  exact ⟨h.1, h.2.1 _ (by decide)⟩

end Simba
